import Mathlib

/-!
# Verification of the Claude-Rock multi-session chat orchestration layer

Shallow embedding of the plugin's chat view (`ChatView.ts`, provided as
`src/unnamed/part_000`), the plugin session store (`main.ts`) and the data
model (`types.ts`).  The external agent service (`ClaudeService.ts`) is not
part of the provided sources; the few service-side operations the view calls
(pending-message buffer, resume-token registry, process registry) are
modelled from the specification and are marked as such.

State is threaded explicitly: every event handler is a function
`AppState → ... → AppState`.  DOM-only statements of the source (element
creation, icons, scrolling) have no state effect and are dropped; every
field read or written by the translated code paths is carried in `AppState`.
Nondeterministic sources (`crypto.randomUUID()`, `Date.now()`, the current
date) are modelled by a counter and clock fields inside the state.
-/

namespace ClaudeRock

/-! ## Data model (types.ts) -/

/-- `ToolUseBlock` from types.ts; the `input` payload is opaque and kept as a string. -/
structure ToolUseBlock where
  id : String
  name : String
  input : String
  deriving Repr, DecidableEq

inductive Role where
  | user
  | assistant
  deriving Repr, DecidableEq, BEq

/-- `ChatMessage` from types.ts (the `isStreaming`/`isError` flags are never
set by the translated code paths and are omitted; `selectionContext` is kept
opaque as the selected text). -/
structure ChatMessage where
  id : String
  role : Role
  content : String
  timestamp : Nat
  thinkingSteps : Option (List ToolUseBlock) := none
  selectionContext : Option String := none
  deriving Repr, DecidableEq

/-- `SessionTokenStats` from types.ts. -/
structure SessionTokenStats where
  inputTokens : Nat
  outputTokens : Nat
  contextWindow : Nat
  cacheReadTokens : Nat
  compactCount : Nat
  lastCompactPreTokens : Option Nat
  deriving Repr, DecidableEq

/-- `ChatSession` from types.ts. -/
structure ChatSession where
  id : String
  cliSessionId : Option String
  messages : List ChatMessage
  createdAt : Nat
  title : Option String := none
  model : Option String := none
  tokenStats : Option SessionTokenStats := none
  deriving Repr, DecidableEq

/-- `ContextUsage` from types.ts; `percentage` is the value of JS
`Math.round`, an integer. -/
structure ContextUsage where
  used : Nat
  limit : Nat
  nominal : Nat
  percentage : ℤ
  deriving Repr, DecidableEq

/-- The `usage` payload of a result record (`ResultMessage["usage"]`).
The handler reads each field with `?? 0`, so fields are optional here. -/
structure Usage where
  input_tokens : Option Nat
  output_tokens : Option Nat
  cache_read_input_tokens : Option Nat
  deriving Repr, DecidableEq

/-- `PendingMessage` from types.ts: in-flight accumulation of a turn. -/
structure PendingMessage where
  text : String
  tools : List ToolUseBlock
  deriving Repr, DecidableEq

/-- A selected-text context as far as prompt building consumes it. -/
structure Selection where
  content : String
  source : String
  deriving Repr, DecidableEq

/-- An attached file as consumed by prompt building. -/
structure AttachedFile where
  name : String
  content : String
  fileType : String
  deriving Repr, DecidableEq

/-- A request handed to the external service:
`claudeService.sendMessage(prompt, sessionId, resumeToken, model)`. -/
structure SentRequest where
  sessionId : String
  prompt : String
  resume : Option String
  model : String
  deriving Repr, DecidableEq

/-! ## Constants and the context-usage computation (ChatView.ts) -/

/-- `ClaudeChatView.CONTEXT_LIMIT` (line 63): fixed limit for 100%. -/
def CONTEXT_LIMIT : Nat := 80000

/-- `ClaudeChatView.AUTO_COMPACT_THRESHOLD` (line 64): 85% triggers auto-compact. -/
def AUTO_COMPACT_THRESHOLD : ℚ := 0.85

/-- `initialTokenStats()` (ChatView.ts lines 81-90). -/
def initialTokenStats : SessionTokenStats :=
  { inputTokens := 0
    outputTokens := 0
    contextWindow := 200000
    cacheReadTokens := 0
    compactCount := 0
    lastCompactPreTokens := none }

/-- `calculateContextUsage` (ChatView.ts lines 92-103).  JS number arithmetic
is modelled over `ℚ`; `Math.round x = ⌊x + 1/2⌋` is Mathlib's `round`. -/
def calculateContextUsage (stats : SessionTokenStats) : ContextUsage :=
  let effectiveLimit := CONTEXT_LIMIT
  let usedTokens := stats.inputTokens + stats.outputTokens
  let percentage : ℚ := min ((usedTokens : ℚ) / (effectiveLimit : ℚ) * 100) 100
  { used := usedTokens
    limit := effectiveLimit
    nominal := stats.contextWindow
    percentage := round percentage }

/-! ## String helpers

Executable models of `String.prototype.trim` and `String.prototype.startsWith`. -/

def isWhitespaceChar (c : Char) : Bool :=
  c == ' ' || c == '\t' || c == '\n' || c == '\r'

/-- JS `s.trim()`: strip leading and trailing whitespace. -/
def jsTrim (s : String) : String :=
  ⟨((s.data.dropWhile isWhitespaceChar).reverse.dropWhile isWhitespaceChar).reverse⟩

/-- JS `s.startsWith(pre)`. -/
def jsStartsWith (s pre : String) : Bool :=
  pre.data.isPrefixOf s.data

/-! ## Association-list helpers

JS objects / Maps keyed by strings are modelled as association lists. -/

def alistGet {α : Type} (l : List (String × α)) (k : String) : Option α :=
  (l.find? (fun p => p.1 == k)).map (fun p => p.2)

def alistSet {α : Type} : List (String × α) → String → α → List (String × α)
  | [], k, v => [(k, v)]
  | p :: rest, k, v => if p.1 == k then (k, v) :: rest else p :: alistSet rest k v

def alistRemove {α : Type} (l : List (String × α)) (k : String) :
    List (String × α) :=
  l.filter (fun p => p.1 != k)

/-- Mutating the session object returned by `sessions.find(...)` affects the
first list element with that id; modelled as an explicit first-match update. -/
def updateFirstSession (l : List ChatSession) (sid : String)
    (f : ChatSession → ChatSession) : List ChatSession :=
  match l with
  | [] => []
  | s :: rest => if s.id == sid then f s :: rest else s :: updateFirstSession rest sid f

/-! ## The combined application state

Plugin fields (main.ts), view fields (ChatView.ts), the persisted settings
the claims touch, and the service-side registries (modelled from the spec,
see below). -/

structure AppState where
  -- plugin (main.ts)
  sessions : List ChatSession
  currentSessionId : Option String
  tokenHistory : List (String × Int)
  defaultModel : String
  thinkingEnabled : Bool
  -- view (ChatView.ts)
  activeSessionId : Option String
  viewMessages : List ChatMessage
  tokenStats : SessionTokenStats
  pendingAutoCompact : Bool
  compactSummary : Option String
  sessionStarted : Bool
  currentModel : String
  lastRecordedTokens : Nat
  currentAssistantContent : String
  hasReceivedText : Bool
  hasStreamingElement : Bool
  currentMessageThinkingSteps : List ToolUseBlock
  lastSelectionContext : Option String
  inputEnabled : Bool
  compactJob : Option (String × String)
  contextDisabled : Bool
  vaultActiveFile : Option (String × String)
  mentionedFiles : List (String × String)
  attachedFiles : List AttachedFile
  selectedText : Option Selection
  selectionInstruction : String
  -- service registries (ClaudeService, modelled from the spec)
  pendingMessages : List (String × PendingMessage)
  cliSessionIds : List (String × String)
  running : List String
  sentPrompts : List SentRequest
  -- environment
  today : String
  now : Nat
  uuidCounter : Nat
  deriving Repr, DecidableEq

/-- Deterministic stand-in for `crypto.randomUUID()`. -/
def freshUuid (st : AppState) : String × AppState :=
  ("uuid-" ++ toString st.uuidCounter, { st with uuidCounter := st.uuidCounter + 1 })

/-- `this.plugin.sessions.find(s => s.id === sid)`. -/
def findSession (st : AppState) (sid : String) : Option ChatSession :=
  st.sessions.find? (fun s => s.id == sid)

def withSessions (st : AppState) (l : List ChatSession) : AppState :=
  { st with sessions := l }

/-- `getCurrentSession()` (main.ts lines 198-201); `!this.currentSessionId`
is JS-falsy for both `null` and the empty string. -/
def getCurrentSession (st : AppState) : Option ChatSession :=
  match st.currentSessionId with
  | none => none
  | some cid => if cid == "" then none else findSession st cid

/-! ## Service-side operations

`ClaudeService.ts` is not among the provided sources; these registries are
modelled from the specification (sections 4.1 and 4.2). -/

/-- Modelled from the spec: `getPendingMessage(sessionId)` of the missing
`ClaudeService.ts` exposes the in-flight (text, tools) accumulation. -/
def getPendingMessage (st : AppState) (sid : String) : Option PendingMessage :=
  alistGet st.pendingMessages sid

/-- Modelled from the spec: `clearPendingMessage(sessionId)` of the missing
`ClaudeService.ts` clears the in-flight accumulation. -/
def clearPendingMessage (st : AppState) (sid : String) : AppState :=
  { st with pendingMessages := alistRemove st.pendingMessages sid }

/-- Modelled from the spec: `getCliSessionId(sessionId)` of the missing
`ClaudeService.ts` returns the resume-token captured from the most recent
Init event, or null. -/
def getCliSessionId (st : AppState) (sid : String) : Option String :=
  alistGet st.cliSessionIds sid

/-- Modelled from the spec: `clearSession(sessionId)` of the missing
`ClaudeService.ts` drops the stored resume-token. -/
def clearSessionService (st : AppState) (sid : String) : AppState :=
  { st with cliSessionIds := alistRemove st.cliSessionIds sid }

/-- Modelled from the spec: `isRunning(sessionId)` of the missing
`ClaudeService.ts` is a pure registry lookup. -/
def isRunning (st : AppState) (sid : String) : Bool :=
  st.running.contains sid

/-- Modelled from the spec: `claudeService.sendMessage(prompt, sessionId,
resumeToken, model)` of the missing `ClaudeService.ts` spawns a process for
the session (registering it as running, with a fresh empty pending-message
buffer) and issues the request. -/
def serviceSend (st : AppState) (sid prompt : String) (resume : Option String)
    (model : String) : AppState :=
  { st with
    sentPrompts := st.sentPrompts ++ [⟨sid, prompt, resume, model⟩]
    running := if st.running.contains sid then st.running else st.running ++ [sid]
    pendingMessages := alistSet st.pendingMessages sid ⟨"", []⟩ }

/-- Modelled from the spec: on each Streaming event the service has already
appended the text block to the session's pending buffer, and the event
carries the cumulative text, so the pending text equals the event text. -/
def servicePendingOnStreaming (st : AppState) (sid text : String) : AppState :=
  match alistGet st.pendingMessages sid with
  | some p =>
      { st with pendingMessages := alistSet st.pendingMessages sid { p with text := text } }
  | none =>
      { st with pendingMessages := alistSet st.pendingMessages sid ⟨text, []⟩ }

/-- Modelled from the spec: on each ToolUse event the service has appended
the tool-use block to the session's pending tool list. -/
def servicePendingOnToolUse (st : AppState) (sid : String) (tool : ToolUseBlock) :
    AppState :=
  match alistGet st.pendingMessages sid with
  | some p =>
      { st with pendingMessages := alistSet st.pendingMessages sid { p with tools := p.tools ++ [tool] } }
  | none =>
      { st with pendingMessages := alistSet st.pendingMessages sid ⟨"", [tool]⟩ }

/-- Modelled from the spec: the process handle is destroyed when the process
exits, so after a Complete event the session is no longer running. -/
def serviceOnComplete (st : AppState) (sid : String) : AppState :=
  { st with running := st.running.filter (fun r => r ≠ sid) }

/-! ## Plugin operations (main.ts) -/

/-- `addTokensToHistory` (main.ts lines 247-256). -/
def addTokensToHistory (st : AppState) (tokens : Int) : AppState :=
  if tokens ≤ 0 then st
  else
    { st with
      tokenHistory :=
        alistSet st.tokenHistory st.today ((alistGet st.tokenHistory st.today).getD 0 + tokens) }

/-- First user message's title (main.ts lines 229-234). -/
def autoTitle (messages : List ChatMessage) : Option String :=
  (messages.find? (fun m => m.role == Role.user)).map (fun m =>
    m.content.take 50 ++ (if m.content.length > 50 then "..." else ""))

/-- `updateCurrentSession` (main.ts lines 216-237); the view always passes
its token stats, so the stats branch is always taken. -/
def updateCurrentSession (st : AppState) (messages : List ChatMessage)
    (cliSessionId : Option String) (tokenStats : SessionTokenStats) : AppState :=
  match getCurrentSession st with
  | none => st
  | some session =>
      withSessions st (updateFirstSession st.sessions session.id (fun s =>
        let s := { s with messages := messages, cliSessionId := cliSessionId,
                          tokenStats := some tokenStats }
        if (s.title.getD "") == "" && messages.length > 0 then
          match autoTitle messages with
          | some t => { s with title := some t }
          | none => s
        else s))

/-- `deleteSession` (main.ts lines 239-245); `sessions[0]?.id || null` is
JS-falsy for a missing head and for an empty-string id. -/
def deleteSession (st : AppState) (sid : String) : AppState :=
  let st := withSessions st (st.sessions.filter (fun s => s.id ≠ sid))
  if st.currentSessionId == some sid then
    { st with currentSessionId :=
        match st.sessions.head? with
        | some s => if s.id == "" then none else some s.id
        | none => none }
  else st

/-! ## View helpers (ChatView.ts) -/

/-- `saveCurrentSession` (ChatView.ts lines 1326-1337). -/
def saveCurrentSession (st : AppState) : AppState :=
  let cliSessionId :=
    match getCurrentSession st with
    | some currentSession => getCliSessionId st currentSession.id
    | none => none
  updateCurrentSession st st.viewMessages cliSessionId st.tokenStats

/-- `saveToolStepsAsMessage` (ChatView.ts lines 1762-1775). -/
def saveToolStepsAsMessage (st : AppState) : AppState :=
  if st.currentMessageThinkingSteps.isEmpty then st
  else
    let (mid, st) := freshUuid st
    let message : ChatMessage :=
      { id := mid, role := .assistant, content := "", timestamp := st.now
        thinkingSteps := some st.currentMessageThinkingSteps }
    let st := { st with viewMessages := st.viewMessages ++ [message]
                        currentMessageThinkingSteps := [] }
    saveCurrentSession st

/-- `saveTextAsMessage` (ChatView.ts lines 1778-1820). -/
def saveTextAsMessage (st : AppState) : AppState :=
  if (jsTrim st.currentAssistantContent).isEmpty then st
  else
    let st := { st with hasStreamingElement := false }
    let selectionContext := st.lastSelectionContext
    let (mid, st) := freshUuid st
    let message : ChatMessage :=
      { id := mid, role := .assistant, content := st.currentAssistantContent
        timestamp := st.now, selectionContext := selectionContext }
    let st := { st with viewMessages := st.viewMessages ++ [message]
                        currentAssistantContent := "", hasReceivedText := false }
    saveCurrentSession st

/-- `updateAssistantMessage` (ChatView.ts lines 1740-1759);
`this.currentAssistantMessage` being non-null is `hasStreamingElement`. -/
def updateAssistantMessage (st : AppState) (fullText : String) : AppState :=
  let st :=
    if !st.hasReceivedText && !(jsTrim fullText).isEmpty then
      let st :=
        if st.currentMessageThinkingSteps.length > 0 then saveToolStepsAsMessage st else st
      { st with hasReceivedText := true, hasStreamingElement := true }
    else st
  if st.hasStreamingElement then { st with currentAssistantContent := fullText } else st

/-- `addToolStep` (ChatView.ts lines 2122-2172), state-relevant part. -/
def addToolStep (st : AppState) (tool : ToolUseBlock) : AppState :=
  let st :=
    if st.hasReceivedText then
      let st := saveTextAsMessage st
      { st with hasReceivedText := false }
    else st
  { st with currentMessageThinkingSteps := st.currentMessageThinkingSteps ++ [tool] }

/-- `finalizeAssistantMessage` (ChatView.ts lines 1862-1929). -/
def finalizeAssistantMessage (st : AppState) : AppState :=
  let st := { st with hasStreamingElement := false }
  let hasContent := !(jsTrim st.currentAssistantContent).isEmpty
  let hasToolSteps := !st.currentMessageThinkingSteps.isEmpty
  let selectionContext := st.lastSelectionContext
  let st :=
    if hasContent || hasToolSteps then
      let (mid, st) := freshUuid st
      let message : ChatMessage :=
        { id := mid, role := .assistant, content := st.currentAssistantContent
          timestamp := st.now
          thinkingSteps := if hasToolSteps then some st.currentMessageThinkingSteps else none
          selectionContext := selectionContext }
      let st := { st with viewMessages := st.viewMessages ++ [message] }
      saveCurrentSession st
    else st
  { st with currentAssistantContent := "", hasReceivedText := false
            currentMessageThinkingSteps := [], hasStreamingElement := false }

/-- `prepareAssistantMessage` (ChatView.ts lines 1708-1720). -/
def prepareAssistantMessage (st : AppState) : AppState :=
  { st with currentAssistantContent := "", hasReceivedText := false
            hasStreamingElement := false, currentMessageThinkingSteps := [] }

/-! ## Compaction (ChatView.ts lines 975-1092) -/

/-- The fixed summarization instruction (ChatView.ts lines 994-999). -/
def summaryPromptFor (conversation : String) : String :=
  "Please provide a concise summary of this conversation that captures the key context, decisions made, and current state. This summary will be used to continue the conversation in a new session.\n\nConversation:\n"
    ++ conversation
    ++ "\n\nProvide only the summary, no additional commentary."

def roleLabel : Role → String
  | .user => "User"
  | .assistant => "Assistant"

/-- Lines 989-991: messages joined as role-labelled lines. -/
def messagesToSummarize (messages : List ChatMessage) : String :=
  String.intercalate "\n\n" (messages.map (fun m => roleLabel m.role ++ ": " ++ m.content))

/-- `runCompact` (ChatView.ts lines 975-1036).  The streaming/complete
closures registered for the throwaway summary session are modelled by the
`compactJob` field (summary session id, accumulated summary), consumed by
the dispatcher below.  `showCompactAnimation` disables input. -/
def runCompact (st : AppState) : AppState :=
  if st.viewMessages.length == 0 then st
  else
    let st := { st with inputEnabled := false }
    let conversation := messagesToSummarize st.viewMessages
    let prompt := summaryPromptFor conversation
    let (uid, st) := freshUuid st
    let summarySessionId := "summary-" ++ uid
    let st := { st with compactJob := some (summarySessionId, "") }
    serviceSend st summarySessionId prompt none st.currentModel

/-- `finishCompact` (ChatView.ts lines 1038-1067).  `hideCompactAnimation`
re-enables input; `addSystemMessage` only touches the DOM. -/
def finishCompact (st : AppState) (summary : String) : AppState :=
  let st := { st with inputEnabled := true }
  let st :=
    match getCurrentSession st with
    | some currentSession =>
        let st := withSessions st (updateFirstSession st.sessions currentSession.id
          (fun s => { s with cliSessionId := none }))
        let st := clearSessionService st currentSession.id
        { st with compactSummary := some summary, sessionStarted := false }
    | none => st
  let prevCompactCount := st.tokenStats.compactCount + 1
  { st with tokenStats := { initialTokenStats with compactCount := prevCompactCount } }

/-! ## Session loading and deletion (ChatView.ts) -/

/-- `loadSession` (ChatView.ts lines 1124-1160), state-relevant part. -/
def loadSession (st : AppState) (session : ChatSession) : AppState :=
  let st := { st with activeSessionId := some session.id
                      viewMessages := session.messages
                      tokenStats := session.tokenStats.getD initialTokenStats }
  let st := { st with lastRecordedTokens := st.tokenStats.inputTokens + st.tokenStats.outputTokens }
  { st with sessionStarted := session.messages.length > 0
            currentModel :=
              match session.model with
              | some m => if m == "" then st.defaultModel else m
              | none => st.defaultModel }

/-- `deleteSessionWithConfirm` (ChatView.ts lines 1300-1314). -/
def deleteSessionWithConfirm (st : AppState) (sid : String) : AppState :=
  if st.sessions.length ≤ 1 then st
  else
    let st := deleteSession st sid
    match getCurrentSession st with
    | some currentSession => loadSession st currentSession
    | none => st

/-! ## Service event handlers (ChatView.ts `setupServiceListeners`, lines 386-546) -/

/-- Streaming handler (lines 390-394): UI only for the active session. -/
def handleStreamingView (st : AppState) (sid text : String) : AppState :=
  if st.activeSessionId == some sid then updateAssistantMessage st text else st

/-- The `onStreaming` closure registered by `runCompact` (lines 1006-1010). -/
def handleStreamingCompact (st : AppState) (sid text : String) : AppState :=
  match st.compactJob with
  | some (jid, acc) =>
      if jid == sid then { st with compactJob := some (jid, acc ++ text) } else st
  | none => st

/-- Result handler (lines 408-449): persistence for any session, UI only for
the active one. -/
def handleResultView (st : AppState) (sid : String) (_isError : Bool)
    (_resultText : String) : AppState :=
  let isActive := st.activeSessionId == some sid
  let st :=
    match findSession st sid with
    | none => st
    | some _ =>
        match getPendingMessage st sid with
        | some pending =>
            if !pending.text.isEmpty then
              let (mid, st) := freshUuid st
              let assistantMessage : ChatMessage :=
                { id := mid, role := .assistant, content := pending.text
                  timestamp := st.now
                  thinkingSteps := if pending.tools.length > 0 then some pending.tools else none
                  selectionContext := st.lastSelectionContext }
              let st := withSessions st (updateFirstSession st.sessions sid
                (fun s => { s with messages := s.messages ++ [assistantMessage] }))
              let st :=
                match getCliSessionId st sid with
                | some cli => withSessions st (updateFirstSession st.sessions sid
                    (fun s => { s with cliSessionId := some cli }))
                | none => st
              clearPendingMessage st sid
            else st
        | none => st
  if isActive then finalizeAssistantMessage st else st

/-- Error handler (lines 451-456); `addErrorMessage` is DOM-only. -/
def handleErrorView (st : AppState) (sid : String) (_message : String) : AppState :=
  if st.activeSessionId == some sid then finalizeAssistantMessage st else st

/-- Complete handler (lines 458-474). -/
def handleCompleteView (st : AppState) (sid : String) : AppState :=
  if st.activeSessionId == some sid then
    let st := finalizeAssistantMessage st
    let st := { st with inputEnabled := true }
    if st.pendingAutoCompact then runCompact { st with pendingAutoCompact := false }
    else st
  else st

/-- The `onComplete` closure registered by `runCompact` (lines 1012-1019). -/
def handleCompleteCompact (st : AppState) (sid : String) : AppState :=
  match st.compactJob with
  | some (jid, acc) =>
      if jid == sid then finishCompact { st with compactJob := none } acc else st
  | none => st

/-- The per-session token-stats overwrite of the contextUpdate handler
(lines 486-489). -/
def overwriteStats (stats0 : SessionTokenStats) (u : Usage) : SessionTokenStats :=
  { stats0 with
    inputTokens := u.input_tokens.getD 0
    outputTokens := u.output_tokens.getD 0
    contextWindow := 200000
    cacheReadTokens := u.cache_read_input_tokens.getD 0 }

/-- ContextUpdate handler (lines 477-513). -/
def handleContextUpdate (st : AppState) (sid : String) (usage : Option Usage) : AppState :=
  let isActive := st.activeSessionId == some sid
  match usage, findSession st sid with
  | some u, some session =>
      let stats := overwriteStats (session.tokenStats.getD initialTokenStats) u
      let st := withSessions st (updateFirstSession st.sessions sid
        (fun s => { s with tokenStats := some stats }))
      let currentTotal := stats.inputTokens + stats.outputTokens
      let delta : Int := (currentTotal : Int) - (st.lastRecordedTokens : Int)
      let st :=
        if isActive && decide (0 < delta) then
          let st := addTokensToHistory st delta
          { st with lastRecordedTokens := currentTotal }
        else st
      if isActive then
        let st := { st with tokenStats := stats }
        let usage2 := calculateContextUsage st.tokenStats
        if AUTO_COMPACT_THRESHOLD * 100 ≤ (usage2.percentage : ℚ) ∧ st.pendingAutoCompact = false then
          { st with pendingAutoCompact := true }
        else st
      else st
  | _, _ => st

/-- ToolUse handler (lines 536-539): UI only for the active session. -/
def handleToolUseView (st : AppState) (sid : String) (tool : ToolUseBlock) : AppState :=
  if st.activeSessionId == some sid then addToolStep st tool else st

/-! ## Event dispatch

Events are emitted by the service tagged with their session id; dispatching
one event runs the service-side bookkeeping and then every registered
listener in registration order (the view's listeners from
`setupServiceListeners`, then any closures registered by `runCompact`). -/

inductive SEvent where
  | init (sessionId cliSessionId : String)
  | streaming (sessionId text : String)
  | toolUse (sessionId : String) (tool : ToolUseBlock)
  | result (sessionId : String) (isError : Bool) (resultText : String)
  | errorEv (sessionId : String) (message : String)
  | complete (sessionId : String) (code : Option Int)
  | contextUpdate (sessionId : String) (usage : Option Usage)
  deriving Repr

def dispatch (st : AppState) : SEvent → AppState
  | .init sid cli => { st with cliSessionIds := alistSet st.cliSessionIds sid cli }
  | .streaming sid text =>
      let st := servicePendingOnStreaming st sid text
      let st := handleStreamingView st sid text
      handleStreamingCompact st sid text
  | .toolUse sid tool =>
      let st := servicePendingOnToolUse st sid tool
      handleToolUseView st sid tool
  | .result sid isError resultText => handleResultView st sid isError resultText
  | .errorEv sid msg => handleErrorView st sid msg
  | .complete sid _code =>
      let st := serviceOnComplete st sid
      let st := handleCompleteView st sid
      handleCompleteCompact st sid
  | .contextUpdate sid usage => handleContextUpdate st sid usage

def runEvents (st : AppState) (events : List SEvent) : AppState :=
  events.foldl dispatch st

/-! ## Sending a message (ChatView.ts `sendMessage`, lines 1560-1679)

The vault reads (`getActiveFileContext`, `getMentionedFilesContext`) are
carried as state fields holding what those reads would return; slash-command
expansion lives in `commands.ts`, which is not among the provided sources,
so the expansion result is an explicit argument (claims never exercise it). -/

def mentionedFilesContext (files : List (String × String)) : String :=
  String.intercalate "\n\n---\n\n"
    (files.map (fun f => "[File: " ++ f.1 ++ "]\n" ++ f.2))

def attachedFileContext (f : AttachedFile) : String :=
  if ["png", "jpg", "jpeg", "gif", "webp"].contains f.fileType then
    "[Attached image: " ++ f.name ++ "]\n" ++ f.content
  else
    "[Attached file: " ++ f.name ++ "]\n" ++ f.content

def sendMessage (st : AppState) (rawInput : String) (slashExpansion : Option String) :
    AppState :=
  let userInput := jsTrim rawInput
  match getCurrentSession st with
  | none => st
  | some currentSession =>
      if userInput.isEmpty || isRunning st currentSession.id then st
      else
        let userPrompt :=
          if jsStartsWith userInput "/" then
            match slashExpansion with
            | some commandPrompt => commandPrompt
            | none => userInput
          else userInput
        let isFirstMessage := st.viewMessages.isEmpty
        let (mid, st) := freshUuid st
        let userMessage : ChatMessage :=
          { id := mid, role := .user, content := userInput, timestamp := st.now }
        let st := { st with viewMessages := st.viewMessages ++ [userMessage] }
        let st := { st with inputEnabled := false }
        let st := prepareAssistantMessage st
        let fullPrompt := userPrompt
        let fullPrompt :=
          if !st.contextDisabled then
            match st.vaultActiveFile with
            | some (name, content) =>
                "[Context: " ++ name ++ "]\n" ++ content ++ "\n\n---\n\n" ++ fullPrompt
            | none => fullPrompt
          else fullPrompt
        let (fullPrompt, st) :=
          if st.mentionedFiles.length > 0 then
            let mentionedContext := mentionedFilesContext st.mentionedFiles
            let fullPrompt :=
              if !mentionedContext.isEmpty then mentionedContext ++ "\n\n---\n\n" ++ fullPrompt
              else fullPrompt
            (fullPrompt, { st with mentionedFiles := [] })
          else (fullPrompt, st)
        let (fullPrompt, st) :=
          if st.attachedFiles.length > 0 then
            let attachedContext :=
              String.intercalate "\n\n---\n\n" (st.attachedFiles.map attachedFileContext)
            (attachedContext ++ "\n\n---\n\n" ++ fullPrompt, { st with attachedFiles := [] })
          else (fullPrompt, st)
        let (fullPrompt, st) :=
          match st.selectedText with
          | some sel =>
              let st := { st with lastSelectionContext := some sel.content }
              let fullPrompt :=
                "[SELECTED TEXT MODE]\n" ++ st.selectionInstruction
                  ++ "\n\n[Selected text from " ++ sel.source ++ "]\n" ++ sel.content
                  ++ "\n\n[END OF SELECTED TEXT]\n\n[User request]\n" ++ fullPrompt
              (fullPrompt, { st with selectedText := none })
          | none => (fullPrompt, { st with lastSelectionContext := none })
        let (fullPrompt, st) :=
          if isFirstMessage && !(st.compactSummary.getD "").isEmpty then
            ("[Previous conversation summary]:\n" ++ st.compactSummary.getD ""
               ++ "\n\n---\n\n" ++ fullPrompt,
             { st with compactSummary := none })
          else (fullPrompt, st)
        let cliSessionId :=
          match getCliSessionId st currentSession.id with
          | some cli => some cli
          | none => currentSession.cliSessionId
        let st :=
          if !st.sessionStarted then
            let st := { st with sessionStarted := true }
            withSessions st (updateFirstSession st.sessions currentSession.id
              (fun s => { s with model := some st.currentModel }))
          else st
        let fullPrompt :=
          if st.thinkingEnabled then "ultrathink: " ++ fullPrompt else fullPrompt
        serviceSend st currentSession.id fullPrompt cliSessionId st.currentModel

/-! ## Concrete scenario states

A small two-session world used to instantiate the claims: session `A` is the
one displayed in the view (active and current), session `B` runs in the
background. -/

def t1 : ToolUseBlock := ⟨"toolu-1", "Read", "notes.md"⟩
def t2 : ToolUseBlock := ⟨"toolu-2", "Grep", "todo"⟩

def statsA : SessionTokenStats := ⟨60000, 8000, 200000, 1200, 0, none⟩

def msgU : ChatMessage := ⟨"m1", .user, "hi", 100, none, none⟩
def msgA : ChatMessage := ⟨"m2", .assistant, "yo", 101, none, none⟩

def sessionA : ChatSession :=
  ⟨"A", some "cli-A", [msgU, msgA], 50, some "chat A", some "haiku", some statsA⟩

def sessionB : ChatSession := ⟨"B", none, [], 60, none, none, some ⟨0, 0, 200000, 0, 0, none⟩⟩

def stBase : AppState :=
  { sessions := [sessionA, sessionB]
    currentSessionId := some "A"
    tokenHistory := []
    defaultModel := "haiku"
    thinkingEnabled := false
    activeSessionId := some "A"
    viewMessages := [msgU, msgA]
    tokenStats := statsA
    pendingAutoCompact := false
    compactSummary := none
    sessionStarted := true
    currentModel := "haiku"
    lastRecordedTokens := 68000
    currentAssistantContent := ""
    hasReceivedText := false
    hasStreamingElement := false
    currentMessageThinkingSteps := []
    lastSelectionContext := none
    inputEnabled := true
    compactJob := none
    contextDisabled := true
    vaultActiveFile := none
    mentionedFiles := []
    attachedFiles := []
    selectedText := none
    selectionInstruction := "INSTR"
    pendingMessages := []
    cliSessionIds := [("A", "cli-A")]
    running := []
    sentPrompts := []
    today := "2026-10-11"
    now := 1000
    uuidCounter := 0 }

/-- A session whose chat holds exactly one message, of role user (Scenario E). -/
def stOneMsg : AppState := { stBase with viewMessages := [msgU] }

/-- A compaction whose summarization turn errors (streams no text) and then,
as every turn does, emits its Complete event. -/
def stC4run : AppState :=
  runEvents (runCompact stBase)
    [.errorEv "summary-uuid-0" "boom", .complete "summary-uuid-0" (some 1)]

/-- A compaction whose summarization turn streams the summary "SUM" and
completes. -/
def stAfterCompact : AppState :=
  runEvents (runCompact stBase)
    [.streaming "summary-uuid-0" "SUM", .complete "summary-uuid-0" (some 0)]

/-- The next outgoing user prompt after the successful compaction. -/
def stC5send : AppState := sendMessage stAfterCompact "next question" none

/-- Background session `B` finished a tool-only turn: its pending message has
empty text and one tool record. -/
def stC1 : AppState := { stBase with pendingMessages := [("B", ⟨"", [t1]⟩)] }

/-- Background session `B` finished a turn with text and one tool record. -/
def stC1w : AppState :=
  { stBase with pendingMessages := [("B", ⟨"tool note", [t1]⟩)]
                cliSessionIds := [("A", "cli-A"), ("B", "cli-B")] }

/-- The session object stored for `A` after the successful compaction. -/
def sessionAAfterCompact : ChatSession := { sessionA with cliSessionId := none }

/-! ## Helper lemmas -/

theorem alistGet_alistRemove {α : Type} (l : List (String × α)) (k : String) :
    alistGet (alistRemove l k) k = none := by
  unfold alistGet alistRemove
  induction l with
  | nil => rfl
  | cons p rest ih =>
      by_cases hp : (p.1 == k) = true
      · simp only [List.filter, bne, hp, Bool.not_true]
        exact ih
      · have hne : (p.1 != k) = true := by simp [bne, hp]
        simp only [List.filter, hne, List.find?, hp]
        exact ih

theorem alistGet_alistSet {α : Type} (l : List (String × α)) (k : String) (v : α) :
    alistGet (alistSet l k v) k = some v := by
  induction l with
  | nil => simp [alistGet, alistSet, List.find?]
  | cons p rest ih =>
      by_cases hp : (p.1 == k) = true
      · simp [alistGet, alistSet, hp, List.find?]
      · simp only [alistGet, alistSet, hp, Bool.false_eq_true, if_false, List.find?]
        simpa [alistGet] using ih

theorem findSession_updateFirstSession (l : List ChatSession) (sid : String)
    (f : ChatSession → ChatSession) (hf : ∀ s, (f s).id = s.id) :
    (updateFirstSession l sid f).find? (fun s => s.id == sid)
      = (l.find? (fun s => s.id == sid)).map f := by
  induction l with
  | nil => rfl
  | cons s rest ih =>
      by_cases hs : (s.id == sid) = true
      · have hfs : ((f s).id == sid) = true := by rw [hf s]; exact hs
        simp [updateFirstSession, hs, List.find?, hfs]
      · simp only [updateFirstSession, hs, Bool.false_eq_true, if_false, List.find?]
        exact ih

theorem updateFirstSession_updateFirstSession (l : List ChatSession) (sid : String)
    (f : ChatSession → ChatSession) (hf : ∀ s, (f s).id = s.id)
    (hff : ∀ s, f (f s) = f s) :
    updateFirstSession (updateFirstSession l sid f) sid f = updateFirstSession l sid f := by
  induction l with
  | nil => rfl
  | cons s rest ih =>
      by_cases hs : (s.id == sid) = true
      · have hfs : ((f s).id == sid) = true := by rw [hf s]; exact hs
        simp [updateFirstSession, hs, hfs, hff s]
      · simp only [updateFirstSession, hs, Bool.false_eq_true, if_false]
        rw [ih]

theorem updateCurrentSession_eq_withSessions (st : AppState) (m : List ChatMessage)
    (c : Option String) (t : SessionTokenStats) :
    updateCurrentSession st m c t = withSessions st (updateCurrentSession st m c t).sessions := by
  unfold updateCurrentSession
  cases hc : getCurrentSession st <;> rfl

theorem saveCurrentSession_eq_withSessions (st : AppState) :
    saveCurrentSession st = withSessions st (saveCurrentSession st).sessions := by
  unfold saveCurrentSession
  exact updateCurrentSession_eq_withSessions _ _ _ _

/-- `finalizeAssistantMessage` only touches the session store, appends to the
view's message list, possibly consumes a uuid, and resets the in-flight
accumulator fields. -/
theorem finalizeAssistantMessage_shape (st : AppState) :
    ∃ l ms k, finalizeAssistantMessage st =
      { st with sessions := l, viewMessages := st.viewMessages ++ ms, uuidCounter := k,
                currentAssistantContent := "", hasReceivedText := false,
                currentMessageThinkingSteps := [], hasStreamingElement := false } := by
  unfold finalizeAssistantMessage
  dsimp only [freshUuid]
  split
  · rw [saveCurrentSession_eq_withSessions]
    exact ⟨_, _, _, rfl⟩
  · exact ⟨st.sessions, [], st.uuidCounter, by simp⟩

theorem runCompact_of_nil (st : AppState) (h : st.viewMessages = []) :
    runCompact st = st := by
  unfold runCompact
  simp [h]

theorem runCompact_of_ne_nil (st : AppState) (h : st.viewMessages ≠ []) :
    runCompact st =
      serviceSend { st with inputEnabled := false, uuidCounter := st.uuidCounter + 1,
                            compactJob := some ("summary-" ++ ("uuid-" ++ toString st.uuidCounter), "") }
        ("summary-" ++ ("uuid-" ++ toString st.uuidCounter))
        (summaryPromptFor (messagesToSummarize st.viewMessages)) none st.currentModel := by
  unfold runCompact
  have hlen : (st.viewMessages.length == 0) = false := by
    simp only [beq_eq_false_iff_ne, ne_eq]
    exact fun h0 => h (List.length_eq_zero.mp h0)
  simp [hlen, freshUuid]

theorem calcUsage_percentage_eq (stats : SessionTokenStats) :
    (calculateContextUsage stats).percentage
      = round (min (((stats.inputTokens + stats.outputTokens : ℕ) : ℚ) / 80000 * 100) 100) := by
  unfold calculateContextUsage CONTEXT_LIMIT
  norm_num

theorem percentage_68000 :
    (calculateContextUsage ⟨60000, 8000, 200000, 0, 0, none⟩).percentage = 85 := by
  rw [calcUsage_percentage_eq]
  have h1 : (((60000 + 8000 : ℕ) : ℚ)) / 80000 * 100 = 85 := by norm_num
  rw [h1, min_eq_left (by norm_num : (85:ℚ) ≤ 100), round_eq]
  norm_num [Int.floor_eq_iff]

theorem percentage_statsA : (calculateContextUsage statsA).percentage = 85 := by
  rw [calcUsage_percentage_eq]
  have h1 : (((60000 + 8000 : ℕ) : ℚ)) / 80000 * 100 = 85 := by norm_num
  unfold statsA
  rw [h1, min_eq_left (by norm_num : (85:ℚ) ≤ 100), round_eq]
  norm_num [Int.floor_eq_iff]

theorem percentage_80000 :
    (calculateContextUsage ⟨80000, 0, 200000, 0, 0, none⟩).percentage = 100 := by
  rw [calcUsage_percentage_eq]
  have h1 : (((80000 + 0 : ℕ) : ℚ)) / 80000 * 100 = 100 := by norm_num
  rw [h1, min_self, round_eq]
  norm_num [Int.floor_eq_iff]

theorem percentage_100 :
    (calculateContextUsage ⟨100, 0, 200000, 0, 0, none⟩).percentage = 0 := by
  rw [calcUsage_percentage_eq]
  have h1 : (((100 + 0 : ℕ) : ℚ)) / 80000 * 100 = 1/8 := by norm_num
  rw [h1, min_eq_left (by norm_num : (1/8:ℚ) ≤ 100), round_eq]
  norm_num [Int.floor_eq_iff]

/-- The auto-compact condition `percentage >= AUTO_COMPACT_THRESHOLD * 100`
compares the rounded integer percentage with 85. -/
theorem threshold_le_iff (z : ℤ) :
    AUTO_COMPACT_THRESHOLD * 100 ≤ (z : ℚ) ↔ 85 ≤ z := by
  have h : (AUTO_COMPACT_THRESHOLD * 100 : ℚ) = ((85:ℤ) : ℚ) := by
    norm_num [AUTO_COMPACT_THRESHOLD]
  rw [h, Int.cast_le]

/-! ## C2: context-usage computation -/

/-- C2 counterexample: the claim states `percentage = min(used / 80000 * 100, 100)`,
but the code applies `Math.round`; at inputTokens = 100, outputTokens = 0 the
code yields 0 while the claim's formula yields 1/8. -/
theorem C2_counterexample :
    ¬ (((calculateContextUsage ⟨100, 0, 200000, 0, 0, none⟩).percentage : ℚ)
        = min (((100 + 0 : ℕ) : ℚ) / 80000 * 100) 100) := by
  rw [percentage_100]
  intro h
  have h1 : (((100 + 0 : ℕ) : ℚ)) / 80000 * 100 = 1/8 := by norm_num
  rw [h1, min_eq_left (by norm_num : (1/8:ℚ) ≤ 100)] at h
  norm_num at h

/-- C2 (amended): for every session token stats, the computed context usage
satisfies `used = inputTokens + outputTokens` and
`percentage = Math.round(min(used / 80000 * 100, 100))` (the claim's formula
composed with JS `Math.round`), with the effective limit the fixed constant
80000 independent of the nominal context window, and the percentage clamped
to at most 100; in particular, for inputTokens = 60000 and outputTokens = 8000
the result is used = 68000 and percentage = 85. -/
theorem C2_contextUsage_amended (stats : SessionTokenStats) :
    (calculateContextUsage stats).used = stats.inputTokens + stats.outputTokens
    ∧ (calculateContextUsage stats).limit = 80000
    ∧ (calculateContextUsage stats).nominal = stats.contextWindow
    ∧ (calculateContextUsage stats).percentage
        = round (min (((stats.inputTokens + stats.outputTokens : ℕ) : ℚ) / 80000 * 100) 100)
    ∧ (calculateContextUsage stats).percentage ≤ 100
    ∧ calculateContextUsage ⟨60000, 8000, 200000, 0, 0, none⟩ = ⟨68000, 80000, 200000, 85⟩ := by
  refine ⟨rfl, rfl, rfl, calcUsage_percentage_eq stats, ?_, ?_⟩
  · rw [calcUsage_percentage_eq, round_eq]
    have h2 : (⌊(100:ℚ) + 1/2⌋ : ℤ) = 100 := by norm_num [Int.floor_eq_iff]
    calc ⌊min (((stats.inputTokens + stats.outputTokens : ℕ) : ℚ) / 80000 * 100) 100 + 1/2⌋
        ≤ ⌊(100:ℚ) + 1/2⌋ := by
          apply Int.floor_le_floor
          have := min_le_right (((stats.inputTokens + stats.outputTokens : ℕ) : ℚ) / 80000 * 100) (100:ℚ)
          linarith
      _ = 100 := h2
  · have hmk : calculateContextUsage ⟨60000, 8000, 200000, 0, 0, none⟩
        = ⟨68000, 80000, 200000,
            (calculateContextUsage ⟨60000, 8000, 200000, 0, 0, none⟩).percentage⟩ := rfl
    rw [hmk, percentage_68000]

/-! ## C6: compaction on a one-message session -/

/-- C6 counterexample: on a session whose chat holds exactly one message of
role user, `runCompact` is not a no-op: it issues a summarization request
(the code's guard is `messages.length === 0`, not `<= 1`). -/
theorem C6_counterexample :
    ¬ (runCompact stOneMsg = stOneMsg)
    ∧ (runCompact stOneMsg).sentPrompts.length = stOneMsg.sentPrompts.length + 1 := by
  constructor
  · decide
  · rfl

/-- C6 (amended): running compaction is a no-op exactly when the session's
message list is empty; with any nonempty message list — in particular a
single user message — a summarization request is issued (while the session
store itself is left untouched until the summary completes). -/
theorem C6_runCompact_amended (st : AppState) :
    (st.viewMessages = [] → runCompact st = st)
    ∧ (st.viewMessages ≠ [] →
        (runCompact st).sentPrompts = st.sentPrompts ++
          [⟨"summary-" ++ ("uuid-" ++ toString st.uuidCounter),
            summaryPromptFor (messagesToSummarize st.viewMessages), none, st.currentModel⟩]
        ∧ (runCompact st).sessions = st.sessions
        ∧ (runCompact st).compactJob
            = some ("summary-" ++ ("uuid-" ++ toString st.uuidCounter), "")) := by
  constructor
  · exact runCompact_of_nil st
  · intro h
    rw [runCompact_of_ne_nil st h]
    exact ⟨rfl, rfl, rfl⟩

theorem C6_runCompact_amended_witness :
    runCompact { stBase with viewMessages := [] } = { stBase with viewMessages := [] }
    ∧ (runCompact stOneMsg).sentPrompts = stOneMsg.sentPrompts ++
        [⟨"summary-" ++ ("uuid-" ++ toString stOneMsg.uuidCounter),
          summaryPromptFor (messagesToSummarize stOneMsg.viewMessages), none,
          stOneMsg.currentModel⟩] :=
  ⟨(C6_runCompact_amended _).1 rfl,
   ((C6_runCompact_amended stOneMsg).2 (by decide)).1⟩

/-! ## C4: compaction failure handling -/

/-- C4: the claim (and spec section 4.5) requires that an errored
summarization turn abandons the compaction with the session state unchanged
and the resume-token kept.  In the code, the Complete event of the errored
summary turn still reaches the `onComplete` closure, which calls
`finishCompact` with the empty accumulated summary: the resume-token is
cleared and the token stats reset even though no summary was obtained. -/
theorem C4_compactionFailure_bug :
    (findSession stBase "A").map (fun s => s.cliSessionId) = some (some "cli-A")
    ∧ stBase.compactSummary = none
    ∧ (findSession stC4run "A").map (fun s => s.cliSessionId) = some none
    ∧ getCliSessionId stC4run "A" = none
    ∧ stC4run.compactSummary = some ""
    ∧ stC4run.tokenStats = ⟨0, 0, 200000, 0, 1, none⟩
    ∧ stC4run.inputEnabled = true := by
  exact ⟨rfl, rfl, rfl, rfl, rfl, rfl, rfl⟩

/-! ## C5: effects of a completed compaction -/

theorem getCurrentSession_findSession (st : AppState) (s : ChatSession)
    (h : getCurrentSession st = some s) : findSession st s.id = some s := by
  unfold getCurrentSession at h
  split at h
  next => cases h
  next cid heq =>
    split at h
    next => cases h
    next hne =>
      have hid : s.id = cid := by
        have hpred := List.find?_some h
        simpa using hpred
      rwa [hid]

/-- C5 counterexample: after a compaction of session A (pre-compaction total
68000) completes with summary "SUM", the next outgoing user prompt is sent
verbatim — the stored summary is not prepended (and remains stored), and the
pre-compaction token total is not recorded (`lastCompactPreTokens` is reset
to null). -/
theorem C5_counterexample :
    (findSession stAfterCompact "A").map (fun s => s.cliSessionId) = some none
    ∧ stAfterCompact.compactSummary = some "SUM"
    ∧ statsA.inputTokens + statsA.outputTokens = 68000
    ∧ stAfterCompact.tokenStats.lastCompactPreTokens
        ≠ some (statsA.inputTokens + statsA.outputTokens)
    ∧ stC5send.sentPrompts.getLast? = some ⟨"A", "next question", none, "haiku"⟩
    ∧ jsStartsWith "next question" "[Previous conversation summary]" = false
    ∧ stC5send.compactSummary = some "SUM" := by
  refine ⟨by rfl, by rfl, by rfl, by decide, by rfl, by decide, by rfl⟩

/-- C5 (amended): when the summarization turn completes, the real session's
resume-token is cleared (both on the session object and in the service
registry), the produced summary is stored, the view's TokenStats are reset to
zero except the compaction counter which is incremented — the pre-compaction
token total is not recorded (`lastCompactPreTokens` resets to null), and the
session object's stored stats are only refreshed at the next save — and the
model selector is unlocked.  The stored summary is prepended to the next
outgoing user prompt only when the view's message list is empty, which does
not hold right after a compaction since compaction preserves the visible
messages; otherwise the prompt is sent verbatim and the summary stays stored. -/
theorem C5_finishCompact_amended (st : AppState) (s : ChatSession) (summary : String)
    (hcur : getCurrentSession st = some s) :
    findSession (finishCompact st summary) s.id = some { s with cliSessionId := none }
    ∧ getCliSessionId (finishCompact st summary) s.id = none
    ∧ (finishCompact st summary).compactSummary = some summary
    ∧ (finishCompact st summary).sessionStarted = false
    ∧ (finishCompact st summary).tokenStats
        = ⟨0, 0, 200000, 0, st.tokenStats.compactCount + 1, none⟩
    ∧ (finishCompact st summary).inputEnabled = true
    ∧ (∀ st2 s2 input, getCurrentSession st2 = some s2 →
        st2.viewMessages.isEmpty = false →
        isRunning st2 s2.id = false → (jsTrim input).isEmpty = false →
        jsStartsWith (jsTrim input) "/" = false → st2.contextDisabled = true →
        st2.mentionedFiles = [] → st2.attachedFiles = [] → st2.selectedText = none →
        st2.thinkingEnabled = false →
        (sendMessage st2 input none).sentPrompts
          = st2.sentPrompts ++ [⟨s2.id, jsTrim input,
              (match getCliSessionId st2 s2.id with
               | some cli => some cli
               | none => s2.cliSessionId), st2.currentModel⟩]
        ∧ (sendMessage st2 input none).compactSummary = st2.compactSummary)
    ∧ (∀ st2 s2 input S, getCurrentSession st2 = some s2 →
        st2.viewMessages.isEmpty = true → st2.compactSummary = some S →
        S.isEmpty = false →
        isRunning st2 s2.id = false → (jsTrim input).isEmpty = false →
        jsStartsWith (jsTrim input) "/" = false → st2.contextDisabled = true →
        st2.mentionedFiles = [] → st2.attachedFiles = [] → st2.selectedText = none →
        st2.thinkingEnabled = false →
        (sendMessage st2 input none).sentPrompts
          = st2.sentPrompts ++ [⟨s2.id,
              "[Previous conversation summary]:\n" ++ S ++ "\n\n---\n\n" ++ jsTrim input,
              (match getCliSessionId st2 s2.id with
               | some cli => some cli
               | none => s2.cliSessionId), st2.currentModel⟩]
        ∧ (sendMessage st2 input none).compactSummary = none) := by
  have hfind : findSession st s.id = some s := getCurrentSession_findSession st s hcur
  have hfind2 : st.sessions.find? (fun x => x.id == s.id) = some s := hfind
  have hcur1 : getCurrentSession { st with inputEnabled := true } = some s := hcur
  constructor
  · unfold finishCompact
    simp only [hcur1]
    dsimp only [findSession, clearSessionService, withSessions]
    rw [findSession_updateFirstSession st.sessions s.id
      (fun x => { x with cliSessionId := none }) (fun x => rfl), hfind2]
    rfl
  refine ⟨?_, ?_, ?_, ?_, ?_, ?_, ?_⟩
  · unfold finishCompact
    simp only [hcur1]
    dsimp only [getCliSessionId, clearSessionService, withSessions]
    exact alistGet_alistRemove _ _
  · unfold finishCompact; simp only [hcur1]
  · unfold finishCompact; simp only [hcur1]
  · unfold finishCompact; simp only [hcur1]; rfl
  · unfold finishCompact; simp only [hcur1]; rfl
  · intro st2 s2 input hcur2 hne hrun htrim hsl hctx hm ha hsel hth
    unfold sendMessage
    simp only [hcur2, htrim, hrun, Bool.or_self, Bool.false_eq_true, if_false,
      hsl, freshUuid, prepareAssistantMessage, hctx, Bool.not_true, hm, ha, hsel,
      hne, List.length_nil, gt_iff_lt, lt_self_iff_false, if_false, hth,
      Bool.false_and, getCliSessionId, serviceSend]
    by_cases hst : st2.sessionStarted <;>
      simp [hst, withSessions, updateFirstSession, alistSet, isRunning]
  · intro st2 s2 input S hcur2 hemp hsum hS hrun htrim hsl hctx hm ha hsel hth
    unfold sendMessage
    simp only [hcur2, htrim, hrun, Bool.or_self, Bool.false_eq_true, if_false,
      hsl, freshUuid, prepareAssistantMessage, hctx, Bool.not_true, hm, ha, hsel,
      hemp, hsum, hS, List.length_nil, gt_iff_lt, lt_self_iff_false, if_false, hth,
      Bool.true_and, Option.getD_some, Bool.not_false, if_true,
      getCliSessionId, serviceSend]
    by_cases hst : st2.sessionStarted <;>
      simp [hst, withSessions, updateFirstSession, alistSet, isRunning]

/-! ## contextUpdate handler characterizations -/

theorem addTokensToHistory_eq (st : AppState) (tokens : Int) :
    addTokensToHistory st tokens
      = { st with tokenHistory :=
            if tokens ≤ 0 then st.tokenHistory
            else alistSet st.tokenHistory st.today
                   ((alistGet st.tokenHistory st.today).getD 0 + tokens) } := by
  unfold addTokensToHistory
  split
  next h => rfl
  next h => rfl

/-- For a background session's event the contextUpdate handler can only
touch the session store. -/
theorem handleContextUpdate_background (st : AppState) (sid : String)
    (usage : Option Usage) (hA : (st.activeSessionId == some sid) = false) :
    handleContextUpdate st sid usage
      = withSessions st (handleContextUpdate st sid usage).sessions := by
  unfold handleContextUpdate
  cases usage with
  | none => rfl
  | some u =>
      cases hf : findSession st sid with
      | none => rfl
      | some s =>
          dsimp only
          simp only [hA, Bool.false_and, Bool.false_eq_true, if_false]
          rfl

theorem handleContextUpdate_sessions (st : AppState) (sid : String) (u : Usage)
    (s : ChatSession) (hfind : findSession st sid = some s) :
    (handleContextUpdate st sid (some u)).sessions
      = updateFirstSession st.sessions sid
          (fun x => { x with
            tokenStats := some (overwriteStats (s.tokenStats.getD initialTokenStats) u) }) := by
  unfold handleContextUpdate
  rw [hfind]
  dsimp only
  simp only [addTokensToHistory_eq]
  repeat' split
  all_goals rfl

theorem handleContextUpdate_tokenHistory (st : AppState) (sid : String) (u : Usage)
    (s : ChatSession) (hfind : findSession st sid = some s) :
    (handleContextUpdate st sid (some u)).tokenHistory
      = if (st.activeSessionId == some sid) = true
            ∧ st.lastRecordedTokens < u.input_tokens.getD 0 + u.output_tokens.getD 0 then
          alistSet st.tokenHistory st.today
            ((alistGet st.tokenHistory st.today).getD 0
              + (((u.input_tokens.getD 0 + u.output_tokens.getD 0 : ℕ) : ℤ)
                  - (st.lastRecordedTokens : ℤ)))
        else st.tokenHistory := by
  unfold handleContextUpdate
  rw [hfind]
  dsimp only [overwriteStats, withSessions]
  simp only [addTokensToHistory_eq]
  repeat' split
  all_goals first
    | rfl
    | (exfalso;
       simp_all only [Bool.and_eq_true, decide_eq_true_eq, not_and, not_lt,
         beq_iff_eq, sub_pos, sub_nonpos, Nat.cast_lt, Nat.cast_le, not_true,
         not_false_iff] <;>
       omega)

theorem handleContextUpdate_flag (st : AppState) (sid : String) (u : Usage)
    (s : ChatSession) (hfind : findSession st sid = some s)
    (hA : (st.activeSessionId == some sid) = true) :
    (handleContextUpdate st sid (some u)).pendingAutoCompact
      = (st.pendingAutoCompact ||
          decide (AUTO_COMPACT_THRESHOLD * 100 ≤
            (((calculateContextUsage
                (overwriteStats (s.tokenStats.getD initialTokenStats) u)).percentage : ℚ)))) := by
  unfold handleContextUpdate
  rw [hfind]
  dsimp only [withSessions]
  simp only [addTokensToHistory_eq]
  repeat' split
  all_goals cases hb : st.pendingAutoCompact <;> simp_all

/-- The contextUpdate handler never issues a request and never touches the
compaction job or the chat transcript. -/
theorem handleContextUpdate_quiescent (st : AppState) (sid : String)
    (usage : Option Usage) :
    (handleContextUpdate st sid usage).sentPrompts = st.sentPrompts
    ∧ (handleContextUpdate st sid usage).compactJob = st.compactJob
    ∧ (handleContextUpdate st sid usage).viewMessages = st.viewMessages := by
  unfold handleContextUpdate
  cases usage with
  | none => exact ⟨rfl, rfl, rfl⟩
  | some u =>
      cases hf : findSession st sid with
      | none => exact ⟨rfl, rfl, rfl⟩
      | some s =>
          dsimp only
          simp only [addTokensToHistory_eq]
          refine ⟨?_, ?_, ?_⟩ <;> (repeat' split) <;> rfl

/-! ## C7: the day-keyed daily usage ledger -/

/-- C7 counterexample: a ContextUpdate for the displayed (foreground) session
does not always advance the daily ledger: when the reported cumulative total
does not exceed the last recorded total (here both are 68000), the ledger is
left unchanged. -/
theorem C7_counterexample :
    stBase.activeSessionId = some "A"
    ∧ (handleContextUpdate stBase "A" (some ⟨some 60000, some 8000, some 1200⟩)).tokenHistory
        = stBase.tokenHistory := by
  refine ⟨rfl, ?_⟩
  rw [handleContextUpdate_tokenHistory stBase "A" ⟨some 60000, some 8000, some 1200⟩
    sessionA (by rfl)]
  rw [if_neg (fun hc => absurd hc.2 (by decide))]

/-- C7 (amended): ContextUpdate events for a session other than the displayed
one never change the day-keyed daily usage ledger; ContextUpdate events for
the displayed session advance it exactly when the reported cumulative
input+output total exceeds the last recorded total (by that difference);
per-session token stats are nevertheless overwritten for every session. -/
theorem C7_dailyLedger_amended :
    (∀ st sid usage, (st.activeSessionId == some sid) = false →
        (handleContextUpdate st sid usage).tokenHistory = st.tokenHistory)
    ∧ (∀ st sid u s, (st.activeSessionId == some sid) = true →
        findSession st sid = some s →
        ((st.lastRecordedTokens < u.input_tokens.getD 0 + u.output_tokens.getD 0 →
          alistGet (handleContextUpdate st sid (some u)).tokenHistory st.today
            = some ((alistGet st.tokenHistory st.today).getD 0
                + (((u.input_tokens.getD 0 + u.output_tokens.getD 0 : ℕ) : ℤ)
                    - (st.lastRecordedTokens : ℤ))))
         ∧ (u.input_tokens.getD 0 + u.output_tokens.getD 0 ≤ st.lastRecordedTokens →
            (handleContextUpdate st sid (some u)).tokenHistory = st.tokenHistory)))
    ∧ (∀ st sid u s, findSession st sid = some s →
        findSession (handleContextUpdate st sid (some u)) sid
          = some { s with
              tokenStats := some (overwriteStats (s.tokenStats.getD initialTokenStats) u) }) := by
  refine ⟨?_, ?_, ?_⟩
  · intro st sid usage hA
    rw [handleContextUpdate_background st sid usage hA]
    rfl
  · intro st sid u s hA hfind
    constructor
    · intro hlt
      rw [handleContextUpdate_tokenHistory st sid u s hfind, if_pos (And.intro hA hlt)]
      exact alistGet_alistSet _ _ _
    · intro hge
      rw [handleContextUpdate_tokenHistory st sid u s hfind,
        if_neg (fun hc => absurd hc.2 (not_lt.mpr hge))]
  · intro st sid u s hfind
    unfold findSession
    rw [handleContextUpdate_sessions st sid u s hfind]
    rw [findSession_updateFirstSession st.sessions sid
      (fun x => { x with
        tokenStats := some (overwriteStats (s.tokenStats.getD initialTokenStats) u) })
      (fun x => rfl)]
    rw [show st.sessions.find? (fun x => x.id == sid) = some s from hfind]
    rfl

theorem C7_dailyLedger_amended_witness :
    (handleContextUpdate stBase "B" (some ⟨some 500, some 0, some 0⟩)).tokenHistory
        = stBase.tokenHistory
    ∧ alistGet (handleContextUpdate { stBase with lastRecordedTokens := 0 } "A"
        (some ⟨some 80000, some 0, some 0⟩)).tokenHistory "2026-10-11" = some 80000 := by
  constructor
  · exact C7_dailyLedger_amended.1 stBase "B" _ (by rfl)
  · have h := (C7_dailyLedger_amended.2.1 { stBase with lastRecordedTokens := 0 } "A"
      ⟨some 80000, some 0, some 0⟩ sessionA (by rfl) (by rfl)).1 (by decide)
    simpa [alistGet] using h

/-! ## C3: the pending-compaction flag -/

/-- C3 counterexample: a ContextUpdate that brings a *background* session's
usage to 100% (at least 85%) while no compaction is pending does not set any
pending-compaction flag — the flag is view-level and only tracked for the
currently displayed session. -/
theorem C3_counterexample :
    stBase.pendingAutoCompact = false
    ∧ stBase.activeSessionId ≠ some "B"
    ∧ (85 : ℤ) ≤ (calculateContextUsage (overwriteStats
        (sessionB.tokenStats.getD initialTokenStats) ⟨some 80000, some 0, some 0⟩)).percentage
    ∧ (handleContextUpdate stBase "B" (some ⟨some 80000, some 0, some 0⟩)).pendingAutoCompact
        = false := by
  refine ⟨rfl, by decide, ?_, ?_⟩
  · rw [show overwriteStats (sessionB.tokenStats.getD initialTokenStats)
        ⟨some 80000, some 0, some 0⟩ = ⟨80000, 0, 200000, 0, 0, none⟩ from rfl,
      percentage_80000]
    decide
  · rw [handleContextUpdate_background stBase "B" (some ⟨some 80000, some 0, some 0⟩) (by rfl)]
    rfl

/-- C3 (amended): for ContextUpdate events of the currently displayed session,
the view-level pending-compaction flag is set exactly when the event brings
the usage percentage to at least 85 while the flag is not already set (the
flag exists only for the displayed session; background sessions are never
flagged, see the counterexample).  A ContextUpdate never executes a
compaction; the flagged compaction runs exactly when the displayed session's
Complete event fires, clearing the flag, and a Complete without the flag
starts no compaction. -/
theorem C3_autoCompactFlag_amended (st : AppState) (sid : String) (u : Usage)
    (s : ChatSession) (hfind : findSession st sid = some s)
    (hA : (st.activeSessionId == some sid) = true) :
    ((handleContextUpdate st sid (some u)).pendingAutoCompact
      = (st.pendingAutoCompact ||
          decide (AUTO_COMPACT_THRESHOLD * 100 ≤
            (((calculateContextUsage
                (overwriteStats (s.tokenStats.getD initialTokenStats) u)).percentage : ℚ)))))
    ∧ (handleContextUpdate st sid (some u)).sentPrompts = st.sentPrompts
    ∧ (handleContextUpdate st sid (some u)).compactJob = st.compactJob
    ∧ (st.pendingAutoCompact = true → st.viewMessages ≠ [] →
        (handleCompleteView st sid).pendingAutoCompact = false
        ∧ (handleCompleteView st sid).compactJob.isSome = true
        ∧ (handleCompleteView st sid).sentPrompts.length = st.sentPrompts.length + 1)
    ∧ (st.pendingAutoCompact = false →
        (handleCompleteView st sid).sentPrompts = st.sentPrompts
        ∧ (handleCompleteView st sid).compactJob = st.compactJob) := by
  refine ⟨handleContextUpdate_flag st sid u s hfind hA,
    (handleContextUpdate_quiescent st sid (some u)).1,
    (handleContextUpdate_quiescent st sid (some u)).2.1, ?_, ?_⟩
  · intro hflag hmsg
    unfold handleCompleteView
    rw [if_pos hA]
    obtain ⟨L, ms, k, hfin⟩ := finalizeAssistantMessage_shape st
    rw [hfin]
    dsimp only
    rw [if_pos hflag]
    have hne : (st.viewMessages ++ ms) ≠ [] := by
      intro hnil
      exact hmsg (List.append_eq_nil.mp hnil).1
    rw [runCompact_of_ne_nil _ hne]
    refine ⟨rfl, rfl, ?_⟩
    simp [serviceSend]
  · intro hflag
    unfold handleCompleteView
    rw [if_pos hA]
    obtain ⟨L, ms, k, hfin⟩ := finalizeAssistantMessage_shape st
    rw [hfin]
    dsimp only
    rw [if_neg (by rw [hflag]; exact Bool.false_ne_true)]
    exact ⟨rfl, rfl⟩

theorem C3_autoCompactFlag_amended_witness :
    findSession stBase "A" = some sessionA
    ∧ (stBase.activeSessionId == some "A") = true
    ∧ (handleContextUpdate stBase "A" (some ⟨some 60000, some 8000, some 1200⟩)).sentPrompts
        = stBase.sentPrompts
    ∧ (handleCompleteView { stBase with pendingAutoCompact := true } "A").sentPrompts.length
        = stBase.sentPrompts.length + 1 := by
  refine ⟨by rfl, by rfl, ?_, ?_⟩
  · exact (C3_autoCompactFlag_amended stBase "A" ⟨some 60000, some 8000, some 1200⟩
      sessionA (by rfl) (by rfl)).2.1
  · exact ((C3_autoCompactFlag_amended { stBase with pendingAutoCompact := true } "A"
      ⟨some 60000, some 8000, some 1200⟩ sessionA (by rfl) (by rfl)).2.2.2.1 rfl
      (by decide)).2.2

/-! ## C8: ContextUpdate overwrite semantics and idempotence -/

/-- C8: processing a ContextUpdate replaces the session's cumulative input,
output and cache-read counts with the event's values (`?? 0`) and the nominal
context-window size with the constant 200000 (events carry no window value),
rather than adding; consequently processing the same event twice leaves the
session store — in particular every session's token stats — equal to
processing it once. -/
theorem C8_contextUpdate_overwrite_idempotent (st : AppState) (sid : String) (u : Usage)
    (s : ChatSession) (hfind : findSession st sid = some s) :
    findSession (handleContextUpdate st sid (some u)) sid
      = some { s with
          tokenStats := some { inputTokens := u.input_tokens.getD 0,
                               outputTokens := u.output_tokens.getD 0,
                               contextWindow := 200000,
                               cacheReadTokens := u.cache_read_input_tokens.getD 0,
                               compactCount := (s.tokenStats.getD initialTokenStats).compactCount,
                               lastCompactPreTokens :=
                                 (s.tokenStats.getD initialTokenStats).lastCompactPreTokens } }
    ∧ (handleContextUpdate (handleContextUpdate st sid (some u)) sid (some u)).sessions
      = (handleContextUpdate st sid (some u)).sessions := by
  have hfind1 : findSession (handleContextUpdate st sid (some u)) sid
      = some { s with
          tokenStats := some (overwriteStats (s.tokenStats.getD initialTokenStats) u) } := by
    unfold findSession
    rw [handleContextUpdate_sessions st sid u s hfind]
    rw [findSession_updateFirstSession st.sessions sid
      (fun x => { x with
        tokenStats := some (overwriteStats (s.tokenStats.getD initialTokenStats) u) })
      (fun x => rfl)]
    rw [show st.sessions.find? (fun x => x.id == sid) = some s from hfind]
    rfl
  refine ⟨hfind1, ?_⟩
  rw [handleContextUpdate_sessions _ sid u _ hfind1]
  rw [handleContextUpdate_sessions st sid u s hfind]
  have hstats : overwriteStats
      ((({ s with
          tokenStats := some (overwriteStats (s.tokenStats.getD initialTokenStats) u) } :
            ChatSession).tokenStats).getD initialTokenStats) u
      = overwriteStats (s.tokenStats.getD initialTokenStats) u := rfl
  rw [hstats]
  exact updateFirstSession_updateFirstSession st.sessions sid _ (fun x => rfl) (fun x => rfl)

theorem C8_contextUpdate_overwrite_idempotent_witness :
    findSession stBase "A" = some sessionA
    ∧ findSession (handleContextUpdate stBase "A" (some ⟨some 61000, some 9000, some 500⟩)) "A"
        = some { sessionA with
            tokenStats := some { inputTokens := 61000, outputTokens := 9000,
                                 contextWindow := 200000, cacheReadTokens := 500,
                                 compactCount := 0, lastCompactPreTokens := none } }
    ∧ (handleContextUpdate
          (handleContextUpdate stBase "A" (some ⟨some 61000, some 9000, some 500⟩)) "A"
          (some ⟨some 61000, some 9000, some 500⟩)).sessions
        = (handleContextUpdate stBase "A" (some ⟨some 61000, some 9000, some 500⟩)).sessions := by
  refine ⟨by rfl, ?_, ?_⟩
  · exact (C8_contextUpdate_overwrite_idempotent stBase "A" ⟨some 61000, some 9000, some 500⟩
      sessionA (by rfl)).1
  · exact (C8_contextUpdate_overwrite_idempotent stBase "A" ⟨some 61000, some 9000, some 500⟩
      sessionA (by rfl)).2

theorem C5_finishCompact_amended_witness :
    getCurrentSession stBase = some sessionA
    ∧ findSession (finishCompact stBase "SUM") sessionA.id
        = some { sessionA with cliSessionId := none }
    ∧ (finishCompact stBase "SUM").compactSummary = some "SUM"
    ∧ (finishCompact stBase "SUM").sessionStarted = false
    ∧ (sendMessage stAfterCompact "next question" none).sentPrompts
        = stAfterCompact.sentPrompts
            ++ [⟨"A", "next question",
                (match getCliSessionId stAfterCompact "A" with
                 | some cli => some cli
                 | none => sessionAAfterCompact.cliSessionId), stAfterCompact.currentModel⟩] := by
  refine ⟨by rfl, ?_, ?_, ?_, ?_⟩
  · exact (C5_finishCompact_amended stBase sessionA "SUM" (by rfl)).1
  · exact (C5_finishCompact_amended stBase sessionA "SUM" (by rfl)).2.2.1
  · exact (C5_finishCompact_amended stBase sessionA "SUM" (by rfl)).2.2.2.1
  · exact ((C5_finishCompact_amended stBase sessionA "SUM" (by rfl)).2.2.2.2.2.2.1
      stAfterCompact sessionAAfterCompact "next question" (by rfl) (by rfl) (by rfl)
      (by rfl) (by rfl) (by rfl) (by rfl) (by rfl) (by rfl) (by rfl)).1

/-! ## C1: result-event persistence and streaming filtering -/

/-- C1 counterexample: a Result event for a background session whose pending
message consists only of tool records (empty text) appends nothing to that
session's message list — the result handler requires non-empty pending text. -/
theorem C1_counterexample :
    getPendingMessage stC1 "B" = some ⟨"", [t1]⟩
    ∧ (findSession stC1 "B").map (fun s => s.messages) = some []
    ∧ ¬ (∃ m, (findSession (handleResultView stC1 "B" false "done") "B").map
          (fun s => s.messages) = some [m]) := by
  refine ⟨by rfl, by rfl, ?_⟩
  rintro ⟨m, hm⟩
  have h : (findSession (handleResultView stC1 "B" false "done") "B").map
      (fun s => s.messages) = some [] := by rfl
  rw [h] at hm
  simp at hm

/-- C1 (amended): for every Result event whose session exists and whose
pending message has non-empty text, the finished assistant Message (pending
text plus tool list) is appended to that session's message list and the
pending buffer cleared, even when the session is not the currently displayed
one; Streaming events leave the view's state untouched unless their session
id equals the active session id. -/
theorem C1_resultPersistence_amended (st : AppState) (sid : String) (s : ChatSession)
    (p : PendingMessage) (isError : Bool) (resultText : String)
    (hbg : (st.activeSessionId == some sid) = false)
    (hfind : findSession st sid = some s)
    (hpend : getPendingMessage st sid = some p)
    (htext : p.text.isEmpty = false) :
    (∃ sAfter, findSession (handleResultView st sid isError resultText) sid = some sAfter
       ∧ sAfter.messages = s.messages ++
          [⟨"uuid-" ++ toString st.uuidCounter, .assistant, p.text, st.now,
            (if p.tools.length > 0 then some p.tools else none), st.lastSelectionContext⟩])
    ∧ getPendingMessage (handleResultView st sid isError resultText) sid = none
    ∧ (∀ text, handleStreamingView st sid text = st) := by
  have hstream : ∀ text, handleStreamingView st sid text = st := by
    intro text
    unfold handleStreamingView
    rw [hbg]
    simp
  have hmain : handleResultView st sid isError resultText
      = clearPendingMessage
          (match getCliSessionId (withSessions { st with uuidCounter := st.uuidCounter + 1 } (updateFirstSession st.sessions sid
              (fun x => { x with messages := x.messages ++
                [⟨"uuid-" ++ toString st.uuidCounter, .assistant, p.text, st.now,
                  (if p.tools.length > 0 then some p.tools else none),
                  st.lastSelectionContext⟩] }))) sid with
           | some cli =>
              withSessions (withSessions { st with uuidCounter := st.uuidCounter + 1 } (updateFirstSession st.sessions sid
                (fun x => { x with messages := x.messages ++
                  [⟨"uuid-" ++ toString st.uuidCounter, .assistant, p.text, st.now,
                    (if p.tools.length > 0 then some p.tools else none),
                    st.lastSelectionContext⟩] })))
                (updateFirstSession (updateFirstSession st.sessions sid
                  (fun x => { x with messages := x.messages ++
                    [⟨"uuid-" ++ toString st.uuidCounter, .assistant, p.text, st.now,
                      (if p.tools.length > 0 then some p.tools else none),
                      st.lastSelectionContext⟩] })) sid
                  (fun x => { x with cliSessionId := some cli }))
           | none =>
              withSessions { st with uuidCounter := st.uuidCounter + 1 } (updateFirstSession st.sessions sid
                (fun x => { x with messages := x.messages ++
                  [⟨"uuid-" ++ toString st.uuidCounter, .assistant, p.text, st.now,
                    (if p.tools.length > 0 then some p.tools else none),
                    st.lastSelectionContext⟩] }))) sid := by
    unfold handleResultView
    rw [hfind, hpend]
    dsimp only [freshUuid]
    rw [htext]
    rw [hbg]
    simp only [Bool.false_eq_true, if_false]
    rw [if_pos (show (!false) = true from rfl)]
    rfl
  refine ⟨?_, ?_, hstream⟩
  · rw [hmain]
    cases hcli : getCliSessionId (withSessions { st with uuidCounter := st.uuidCounter + 1 } (updateFirstSession st.sessions sid
        (fun x => { x with messages := x.messages ++
          [⟨"uuid-" ++ toString st.uuidCounter, .assistant, p.text, st.now,
            (if p.tools.length > 0 then some p.tools else none),
            st.lastSelectionContext⟩] }))) sid with
    | none =>
        refine ⟨{ s with messages := s.messages ++
          [⟨"uuid-" ++ toString st.uuidCounter, .assistant, p.text, st.now,
            (if p.tools.length > 0 then some p.tools else none),
            st.lastSelectionContext⟩] }, ?_, rfl⟩
        unfold findSession clearPendingMessage withSessions
        dsimp only
        rw [findSession_updateFirstSession st.sessions sid
          (fun x => { x with messages := x.messages ++
            [⟨"uuid-" ++ toString st.uuidCounter, .assistant, p.text, st.now,
              (if p.tools.length > 0 then some p.tools else none),
              st.lastSelectionContext⟩] }) (fun x => rfl)]
        rw [show st.sessions.find? (fun x => x.id == sid) = some s from hfind]
        rfl
    | some cli =>
        refine ⟨{ ({ s with messages := s.messages ++
          [⟨"uuid-" ++ toString st.uuidCounter, .assistant, p.text, st.now,
            (if p.tools.length > 0 then some p.tools else none),
            st.lastSelectionContext⟩] } : ChatSession) with cliSessionId := some cli },
          ?_, rfl⟩
        unfold findSession clearPendingMessage withSessions
        dsimp only
        rw [findSession_updateFirstSession _ sid
          (fun x => ({ x with cliSessionId := some cli } : ChatSession)) (fun x => rfl)]
        rw [findSession_updateFirstSession st.sessions sid
          (fun x => { x with messages := x.messages ++
            [⟨"uuid-" ++ toString st.uuidCounter, .assistant, p.text, st.now,
              (if p.tools.length > 0 then some p.tools else none),
              st.lastSelectionContext⟩] }) (fun x => rfl)]
        rw [show st.sessions.find? (fun x => x.id == sid) = some s from hfind]
        rfl
  · rw [hmain]
    have hclear : ∀ st2 : AppState, getPendingMessage (clearPendingMessage st2 sid) sid = none :=
      fun st2 => alistGet_alistRemove _ _
    cases hcli : getCliSessionId (withSessions { st with uuidCounter := st.uuidCounter + 1 } (updateFirstSession st.sessions sid
        (fun x => { x with messages := x.messages ++
          [⟨"uuid-" ++ toString st.uuidCounter, .assistant, p.text, st.now,
            (if p.tools.length > 0 then some p.tools else none),
            st.lastSelectionContext⟩] }))) sid with
    | none => exact hclear _
    | some cli => exact hclear _

theorem C1_resultPersistence_amended_witness :
    (stC1w.activeSessionId == some "B") = false
    ∧ findSession stC1w "B" = some sessionB
    ∧ getPendingMessage stC1w "B" = some ⟨"tool note", [t1]⟩
    ∧ getPendingMessage (handleResultView stC1w "B" false "ok") "B" = none := by
  refine ⟨by rfl, by rfl, by rfl, ?_⟩
  exact (C1_resultPersistence_amended stC1w "B" sessionB ⟨"tool note", [t1]⟩ false "ok"
    (by rfl) (by rfl) (by rfl) (by rfl)).2.1

/-! ## C9: persistence of tool-only turns -/

/-- C9 counterexample: for a background session, an assistant turn that
produced only tool invocations (two tool-use records, no text) is not
persisted at all — the session's message list stays empty although the
pending tool list was accumulated. -/
theorem C9_counterexample :
    getPendingMessage (runEvents stBase [.toolUse "B" t1, .toolUse "B" t2]) "B"
        = some ⟨"", [t1, t2]⟩
    ∧ (findSession (runEvents stBase
        [.toolUse "B" t1, .toolUse "B" t2, .result "B" false "done"]) "B").map
        (fun s => s.messages) = some []
    ∧ ¬ (∃ ms m, (findSession (runEvents stBase
        [.toolUse "B" t1, .toolUse "B" t2, .result "B" false "done"]) "B").map
        (fun s => s.messages) = some (ms ++ [m])) := by
  refine ⟨by rfl, by rfl, ?_⟩
  rintro ⟨ms, m, hm⟩
  have h : (findSession (runEvents stBase
      [.toolUse "B" t1, .toolUse "B" t2, .result "B" false "done"]) "B").map
      (fun s => s.messages) = some [] := by rfl
  rw [h] at hm
  simp at hm

/-- C9 (amended): for the *displayed* session, an assistant turn that produced
only tool invocations and no text is persisted as an assistant Message with
empty text whose thinkingSteps carry the ordered tool-use records; a turn
with two tool-use blocks and a text block persists a Message with
thinkingSteps of length 2 — the tool steps are stored on their own message,
followed by a separate message holding the text; for a background session a
tool-only turn is not persisted (see the counterexample). -/
theorem C9_toolPersistence_amended :
    ((findSession (runEvents (prepareAssistantMessage stBase)
        [.toolUse "A" t1, .toolUse "A" t2, .result "A" false "done"]) "A").map
        (fun s => s.messages)
      = some ([msgU, msgA] ++ [⟨"uuid-0", .assistant, "", 1000, some [t1, t2], none⟩]))
    ∧ ((findSession (runEvents (prepareAssistantMessage stBase)
        [.toolUse "A" t1, .toolUse "A" t2, .streaming "A" "hello",
         .result "A" false "done"]) "A").map
        (fun s => s.messages)
      = some ([msgU, msgA] ++ [⟨"uuid-0", .assistant, "", 1000, some [t1, t2], none⟩,
          ⟨"uuid-2", .assistant, "hello", 1000, none, none⟩]))
    ∧ ((findSession (runEvents stBase
        [.toolUse "B" t1, .toolUse "B" t2, .result "B" false "done"]) "B").map
        (fun s => s.messages) = some []) := by
  refine ⟨?_, ?_, ?_⟩ <;> rfl

/-! ## C10: deleting a session through the chat view -/

theorem length_filter_ne_ids (l : List ChatSession) (sid : String)
    (hnd : (l.map (fun s => s.id)).Nodup) :
    l.length - 1 ≤ (l.filter (fun s => s.id ≠ sid)).length := by
  induction l with
  | nil => simp
  | cons s rest ih =>
      rw [List.map_cons, List.nodup_cons] at hnd
      obtain ⟨hnotin, hnd2⟩ := hnd
      by_cases h : s.id = sid
      · have hall : rest.filter (fun x => x.id ≠ sid) = rest := by
          apply List.filter_eq_self.mpr
          intro a ha
          have : a.id ≠ sid := by
            intro heq
            exact hnotin (by
              rw [← h] at heq
              exact heq ▸ List.mem_map_of_mem (fun s => s.id) ha)
          simpa using this
        rw [List.filter_cons, if_neg (by simpa using h)]
        rw [hall]
        simp
      · rw [List.filter_cons, if_pos (by simpa using h)]
        have := ih hnd2
        simp only [List.length_cons]
        omega

theorem deleteSession_of_beq_false (st : AppState) (sid : String)
    (h : (st.currentSessionId == some sid) = false) :
    deleteSession st sid = withSessions st (st.sessions.filter (fun s => s.id ≠ sid)) := by
  unfold deleteSession
  dsimp only [withSessions]
  rw [if_neg (by rw [h]; exact Bool.false_ne_true)]

theorem deleteSession_of_beq_true (st : AppState) (sid : String)
    (h : (st.currentSessionId == some sid) = true) (s0 : ChatSession)
    (hs0 : (st.sessions.filter (fun s => s.id ≠ sid)).head? = some s0)
    (hs0ne : s0.id ≠ "") :
    deleteSession st sid
      = { withSessions st (st.sessions.filter (fun s => s.id ≠ sid)) with
          currentSessionId := some s0.id } := by
  unfold deleteSession
  dsimp only [withSessions]
  rw [if_pos h, hs0]
  dsimp only
  rw [if_neg (by simp [hs0ne])]

theorem deleteSessionWithConfirm_char (st : AppState) (sid : String)
    (hlen : ¬ st.sessions.length ≤ 1) (x : ChatSession)
    (hxmem : x ∈ st.sessions.filter (fun s => s.id ≠ sid)) (hxne : x.id ≠ "")
    (hdel : deleteSession st sid
      = { withSessions st (st.sessions.filter (fun s => s.id ≠ sid)) with
          currentSessionId := some x.id }) :
    (deleteSessionWithConfirm st sid).sessions = st.sessions.filter (fun s => s.id ≠ sid)
    ∧ (deleteSessionWithConfirm st sid).currentSessionId = some x.id := by
  have hfindy : ∃ y, (st.sessions.filter (fun s => s.id ≠ sid)).find?
      (fun s => s.id == x.id) = some y := by
    have hsome : ((st.sessions.filter (fun s => s.id ≠ sid)).find?
        (fun s => s.id == x.id)).isSome := by
      rw [List.find?_isSome]
      exact ⟨x, hxmem, by simp⟩
    exact Option.isSome_iff_exists.mp hsome
  obtain ⟨y, hy⟩ := hfindy
  have hgc : getCurrentSession (deleteSession st sid) = some y := by
    rw [hdel]
    unfold getCurrentSession findSession
    dsimp only [withSessions]
    rw [if_neg (by simp [hxne])]
    exact hy
  have hrun : deleteSessionWithConfirm st sid = loadSession (deleteSession st sid) y := by
    unfold deleteSessionWithConfirm
    rw [if_neg hlen]
    dsimp only
    rw [hgc]
  rw [hrun, hdel]
  exact ⟨rfl, rfl⟩

/-- C10: deleting a session through the chat view never leaves zero sessions
and always leaves a valid current session: with fewer than two sessions the
view refuses to delete, and deleting the current session reassigns
`currentSessionId` to the first remaining session. -/
theorem C10_deleteSession_invariant (st : AppState) (sid : String)
    (hnd : (st.sessions.map (fun s => s.id)).Nodup)
    (hids : ∀ s ∈ st.sessions, s.id ≠ "")
    (hcur : ∃ c ∈ st.sessions, st.currentSessionId = some c.id) :
    (st.sessions.length ≤ 1 → deleteSessionWithConfirm st sid = st)
    ∧ (deleteSessionWithConfirm st sid).sessions ≠ []
    ∧ (∃ c ∈ (deleteSessionWithConfirm st sid).sessions,
        (deleteSessionWithConfirm st sid).currentSessionId = some c.id)
    ∧ (2 ≤ st.sessions.length → st.currentSessionId = some sid →
        (deleteSessionWithConfirm st sid).currentSessionId
          = ((st.sessions.filter (fun s => s.id ≠ sid)).head?).map (fun s => s.id)) := by
  by_cases hlen : st.sessions.length ≤ 1
  · have heq : deleteSessionWithConfirm st sid = st := by
      unfold deleteSessionWithConfirm
      rw [if_pos hlen]
    obtain ⟨c, hc, hcid⟩ := hcur
    refine ⟨fun _ => heq, ?_, ?_, ?_⟩
    · rw [heq]; exact List.ne_nil_of_mem hc
    · rw [heq]; exact ⟨c, hc, hcid⟩
    · intro h2 _; omega
  · have h2 : 2 ≤ st.sessions.length := by omega
    have hflen : 1 ≤ (st.sessions.filter (fun s => s.id ≠ sid)).length := by
      have := length_filter_ne_ids st.sessions sid hnd
      omega
    have hfne : st.sessions.filter (fun s => s.id ≠ sid) ≠ [] := by
      intro h0
      rw [h0] at hflen
      simp at hflen
    by_cases hcs : (st.currentSessionId == some sid) = true
    · obtain ⟨s0, hs0⟩ : ∃ s0, (st.sessions.filter (fun s => s.id ≠ sid)).head? = some s0 := by
        cases hS : st.sessions.filter (fun s => s.id ≠ sid) with
        | nil => exact absurd hS hfne
        | cons a r => exact ⟨a, rfl⟩
      have hs0mem : s0 ∈ st.sessions.filter (fun s => s.id ≠ sid) :=
        List.mem_of_mem_head? (by rw [hs0]; rfl)
      have hs0ne : s0.id ≠ "" := hids s0 (List.mem_of_mem_filter hs0mem)
      have hdel := deleteSession_of_beq_true st sid hcs s0 hs0 hs0ne
      obtain ⟨hsess, hcid⟩ :=
        deleteSessionWithConfirm_char st sid hlen s0 hs0mem hs0ne hdel
      refine ⟨fun h1 => absurd h1 hlen, ?_, ?_, ?_⟩
      · rw [hsess]; exact hfne
      · exact ⟨s0, by rw [hsess]; exact hs0mem, hcid⟩
      · intro _ _
        rw [hcid, hs0]
        rfl
    · have hcsf : (st.currentSessionId == some sid) = false := by
        cases hx : st.currentSessionId == some sid
        · rfl
        · exact absurd hx hcs
      obtain ⟨c, hc, hcid0⟩ := hcur
      have hcne : c.id ≠ sid := by
        intro heq
        rw [hcid0, heq] at hcsf
        simp at hcsf
      have hcmem : c ∈ st.sessions.filter (fun s => s.id ≠ sid) :=
        List.mem_filter.mpr ⟨hc, by simpa using hcne⟩
      have hcne2 : c.id ≠ "" := hids c hc
      have hdel0 := deleteSession_of_beq_false st sid hcsf
      have hdel : deleteSession st sid
          = { withSessions st (st.sessions.filter (fun s => s.id ≠ sid)) with
              currentSessionId := some c.id } := by
        rw [hdel0, ← hcid0]
        rfl
      obtain ⟨hsess, hcid⟩ :=
        deleteSessionWithConfirm_char st sid hlen c hcmem hcne2 hdel
      refine ⟨fun h1 => absurd h1 hlen, ?_, ?_, ?_⟩
      · rw [hsess]; exact hfne
      · exact ⟨c, by rw [hsess]; exact hcmem, hcid⟩
      · intro _ hsid
        exact absurd (by rw [hsid]; simp : (st.currentSessionId == some sid) = true) hcs

theorem C10_deleteSession_invariant_witness :
    (stBase.sessions.map (fun s => s.id)).Nodup
    ∧ (deleteSessionWithConfirm stBase "A").sessions ≠ []
    ∧ (deleteSessionWithConfirm stBase "A").currentSessionId
        = ((stBase.sessions.filter (fun s => s.id ≠ "A")).head?).map (fun s => s.id) := by
  refine ⟨by decide, ?_, ?_⟩
  · exact (C10_deleteSession_invariant stBase "A" (by decide)
      (by intro s hs; fin_cases hs <;> decide)
      ⟨sessionA, by decide, by rfl⟩).2.1
  · exact (C10_deleteSession_invariant stBase "A" (by decide)
      (by intro s hs; fin_cases hs <;> decide)
      ⟨sessionA, by decide, by rfl⟩).2.2.2 (by decide) (by rfl)

end ClaudeRock
